import Mathlib

/-!
Verification of the receipt-printing subsystem of the shabu-order
repository: ESC/POS command building (`services/escposPrinter.js` and its
older duplicate module), receipt payload composition, the TCP transport's
timing behaviour, and the category-based print routing inside the order
handler (`orderHandler` in the server file).

Machine bytes are modelled as `Nat` values (every byte below 256 by
construction), buffers as `List Nat`, JavaScript nullable strings and
numbers as `Option String` / `Option Int`.
-/

namespace ShabuOrder

/-- Printer targets of the routing table `byPrinter = { EPSON: [], XPRINTER: [] }`. -/
inductive Printer where
  | EPSON
  | XPRINTER
deriving DecidableEq, Repr

/-- Category record as read by the order handler from the database
(`categorySchema`: a name plus a `printer` string field). -/
structure Category where
  name : String
  printer : String
deriving DecidableEq, Repr

/-- Order line item as posted to the order handler: a name, a quantity that
may be absent (JS `undefined`) and a category name. -/
structure Item where
  name : String
  qty : Option Int
  category : String
deriving DecidableEq, Repr

/-! Character encoding.

Modelled from the spec: the two Thai codepage codecs are supplied by the
`iconv-lite` library (`iconv.encode(text, 'tis-620')` and
`iconv.encode(text, 'cp874')`), whose tables are not part of this
repository.  Both map ASCII identically, map the Thai Unicode block
U+0E01..U+0E5B linearly onto bytes 0xA1..0xFB, and replace unmappable
code points with `?` (0x3F); CP874 additionally covers a few Windows
extensions (euro sign, horizontal ellipsis). -/

/-- TIS-620 encoding of one character. -/
def encodeTIS620Char (c : Char) : Nat :=
  if c.toNat < 0x80 then c.toNat
  else if 0x0E01 ≤ c.toNat ∧ c.toNat ≤ 0x0E5B then c.toNat - 0x0E00 + 0xA0
  else 0x3F

/-- TIS-620 encoding of a string. -/
def encodeTIS620 (s : String) : List Nat := s.data.map encodeTIS620Char

/-- CP874 (Windows Thai) encoding of one character. -/
def encodeCP874Char (c : Char) : Nat :=
  if c.toNat < 0x80 then c.toNat
  else if c.toNat = 0x20AC then 0x80
  else if c.toNat = 0x2026 then 0x85
  else if 0x0E01 ≤ c.toNat ∧ c.toNat ≤ 0x0E5B then c.toNat - 0x0E00 + 0xA0
  else 0x3F

/-- CP874 encoding of a string. -/
def encodeCP874 (s : String) : List Nat := s.data.map encodeCP874Char

/-! ESC/POS command builders. -/

/-- The byte `ESC` (0x1B). -/
def ESC : Nat := 0x1B
/-- The byte `GS` (0x1D). -/
def GS : Nat := 0x1D
/-- The byte `FS` (0x1C). -/
def FS : Nat := 0x1C

/-- Epson Thai initialisation from `services/escposPrinter.js`:
`ESC @` (initialise), `ESC R 11` (international character set: Thai),
`ESC t 21` (codepage 21, TIS-620). -/
def epsonSetThai : List Nat :=
  [ESC, 0x40] ++ [ESC, 0x52, 0x0B] ++ [ESC, 0x74, 0x15]

/-- Epson Thai initialisation from the older duplicate printer module:
`ESC R 11` then `ESC t 21`, without the leading `ESC @` reset. -/
def epsonSetThaiLegacy : List Nat :=
  [ESC, 0x52, 0x0B] ++ [ESC, 0x74, 0x15]

/-- XPrinter CP874 initialisation (both modules): `ESC @`, `FS .` (cancel
Chinese mode), `ESC R 0` (international character set: USA), `ESC t n`,
`GS t n` (codepage selected twice; `n` is `XPR_CODEPAGE`, default 70),
`ESC M 0` (font A). -/
def xprinterSetThaiCP874 (codePage : Nat) : List Nat :=
  [ESC, 0x40] ++ [FS, 0x2E] ++ [ESC, 0x52, 0x00] ++ [ESC, 0x74, codePage]
    ++ [GS, 0x74, codePage] ++ [ESC, 0x4D, 0x00]

/-- Default `XPR_CODEPAGE` value (`process.env.XPR_CODEPAGE || 70`). -/
def defaultXprCodepage : Nat := 70

/-- Cut command of `services/escposPrinter.js`: `GS V A 16`. -/
def cutPaper : List Nat := [GS, 0x56, 0x41, 0x10]

/-- Cut command of the older duplicate printer module: `GS V B 0` (partial cut). -/
def cutPaperLegacy : List Nat := [GS, 0x56, 0x42, 0x00]

/-! Receipt payload composition (`printEpson` / `printXprinterThaiCP874`). -/

/-- The divider literal `'------------------------------'` of the printer
functions. -/
def divider : String := "------------------------------"

/-- The fixed Thai thank-you line of the printer functions. -/
def thankYou : String := "ขอบคุณครับ/ค่ะ"

/-- Payload assembled by `printEpson` before any socket work: init bytes,
then blank line + title + newline, opening divider, one line per entry of
`lines`, closing divider, thank-you line (all TIS-620 encoded), three
feed newlines, cut command. -/
def printEpsonPayload (title : String) (lines : List String) : List Nat :=
  epsonSetThai
    ++ encodeTIS620 ("\n" ++ title ++ "\n")
    ++ encodeTIS620 (divider ++ "\n")
    ++ (lines.flatMap fun line => encodeTIS620 (line ++ "\n"))
    ++ encodeTIS620 (divider ++ "\n")
    ++ encodeTIS620 (thankYou ++ "\n")
    ++ [0x0A, 0x0A, 0x0A]
    ++ cutPaper

/-- Payload assembled by `printXprinterThaiCP874`: same structure with the
XPrinter init bytes and CP874 encoding. -/
def printXprinterPayload (codePage : Nat) (title : String) (lines : List String) : List Nat :=
  xprinterSetThaiCP874 codePage
    ++ encodeCP874 ("\n" ++ title ++ "\n")
    ++ encodeCP874 (divider ++ "\n")
    ++ (lines.flatMap fun line => encodeCP874 (line ++ "\n"))
    ++ encodeCP874 (divider ++ "\n")
    ++ encodeCP874 (thankYou ++ "\n")
    ++ [0x0A, 0x0A, 0x0A]
    ++ cutPaper

/-! Print routing (`orderHandler` in the server file). -/

/-- Resolution of one item's printer target:
`const cat = categories.find(c => c.name === item.category) || { printer: 'EPSON' }`
followed by `(cat.printer === 'XPRINTER') ? 'XPRINTER' : 'EPSON'`. -/
def resolveTarget (categories : List Category) (item : Item) : Printer :=
  match categories.find? (fun c => c.name == item.category) with
  | some cat => if cat.printer == "XPRINTER" then .XPRINTER else .EPSON
  | none => .EPSON

/-- The routing loop `for (const item of items) byPrinter[target].push(item)`,
returning the `(EPSON, XPRINTER)` groups in push order. -/
def routeByPrinter (categories : List Category) (items : List Item) :
    List Item × List Item :=
  items.foldl
    (fun acc item =>
      match resolveTarget categories item with
      | .EPSON => (acc.1 ++ [item], acc.2)
      | .XPRINTER => (acc.1, acc.2 ++ [item]))
    ([], [])

/-- Group of items routed to the EPSON printer. -/
def epsonItems (categories : List Category) (items : List Item) : List Item :=
  (routeByPrinter categories items).1

/-- Group of items routed to the XPRINTER printer. -/
def xprinterItems (categories : List Category) (items : List Item) : List Item :=
  (routeByPrinter categories items).2

/-- JS string truthiness fallback `s || d` for an optional string. -/
def orDefault (s : Option String) (d : String) : String :=
  match s with
  | none => d
  | some t => if t == "" then d else t

/-- The quantity written on a receipt line and stored on the order:
`item.qty || 1` (JS `||` replaces the falsy values `undefined` and `0`
by 1 and keeps everything else, negative values included). -/
def receiptQty (q : Option Int) : Int :=
  match q with
  | none => 1
  | some v => if v == 0 then 1 else v

/-- One item line of `makeLines`: `x{qty or 1}  {name}`. -/
def itemLine (x : Item) : String :=
  "x" ++ toString (receiptQty x.qty) ++ "  " ++ x.name

/-- Truthiness of the optional note (`note ? ... : ...`). -/
def noteTruthy (note : Option String) : Bool :=
  match note with
  | none => false
  | some s => s != ""

/-- The note line `หมายเหตุ: {note}`. -/
def noteLine (n : String) : String := "หมายเหตุ: " ++ n

/-- The `makeLines(subset)` helper of the order handler: table line, one
line per item of the subset, then the note line when the note is truthy. -/
def makeLines (table note : Option String) (subset : List Item) : List String :=
  ["โต๊ะ " ++ orDefault table "-"]
    ++ subset.map itemLine
    ++ (if noteTruthy note then [noteLine (note.getD "")] else [])

/-- One print job the order handler issues: the target printer, the
receipt title `ORDER #{orderId}`, the partition subset it was built from
and the lines handed to the printer function. -/
structure ReceiptJob where
  target : Printer
  title : String
  items : List Item
  lines : List String
deriving DecidableEq, Repr

/-- Construction of the job for one non-empty partition. -/
def mkJob (orderId : String) (table note : Option String) (p : Printer)
    (subset : List Item) : ReceiptJob :=
  { target := p
    title := "ORDER #" ++ orderId
    items := subset
    lines := makeLines table note subset }

/-- The print jobs the order handler issues for one order:
`if (byPrinter.EPSON.length) printEpson(...)` then
`if (byPrinter.XPRINTER.length) printXprinterThaiCP874(...)`. -/
def routeJobs (categories : List Category) (orderId : String)
    (table note : Option String) (items : List Item) : List ReceiptJob :=
  (if (epsonItems categories items).length ≠ 0 then
      [mkJob orderId table note .EPSON (epsonItems categories items)]
    else [])
  ++ (if (xprinterItems categories items).length ≠ 0 then
      [mkJob orderId table note .XPRINTER (xprinterItems categories items)]
    else [])

/-- The per-target payloads one dispatch produces: the EPSON payload when
its group is non-empty and the XPRINTER payload when its group is
non-empty, composed from the same inputs the handler uses. -/
def routePayloads (codePage : Nat) (categories : List Category) (orderId : String)
    (table note : Option String) (items : List Item) :
    Option (List Nat) × Option (List Nat) :=
  ((if (epsonItems categories items).length ≠ 0 then
      some (printEpsonPayload ("ORDER #" ++ orderId)
        (makeLines table note (epsonItems categories items)))
    else none),
   (if (xprinterItems categories items).length ≠ 0 then
      some (printXprinterPayload codePage ("ORDER #" ++ orderId)
        (makeLines table note (xprinterItems categories items)))
    else none))

/-! Transport timing model.

The printer functions race socket events against timers.  The model takes
the network's behaviour as input — when (if ever) the connect callback
would fire and when (if ever) an error event would fire, in milliseconds
from the call — assumes the write callback fires together with the
connect callback (payloads are small), and reports which settlement wins
the race and when. -/

/-- Network behaviour seen by one transport call. -/
structure NetEnv where
  connectAt : Option Nat
  errorAt : Option Nat
deriving DecidableEq, Repr

/-- Stand-in time for an event that never occurs (beyond every timer). -/
def neverMs : Nat := 1000000000

/-- How a transport promise settles. -/
inductive TransportResult where
  | ok
  | timeout
  | socketError
deriving DecidableEq, Repr

/-- Outcome of one transport call: settlement kind and time, plus the
write-completion and socket-close times on the success path. -/
structure DeliverOutcome where
  result : TransportResult
  settledAt : Nat
  writeDoneAt : Option Nat
  closedAt : Option Nat
deriving DecidableEq, Repr

/-- Overall deadline timer of `services/escposPrinter.js`
(`setTimeout(..., 12000)`, a literal). -/
def timerMsService : Nat := 12000

/-- Idle timeout of `services/escposPrinter.js` (`socket.setTimeout(10000)`). -/
def idleTimeoutMs : Nat := 10000

/-- Drain delay of `services/escposPrinter.js`: the socket is closed by
`setTimeout(() => { socket.end(); resolve(ok) }, 200)` after the write. -/
def drainDelayMs : Nat := 200

/-- Overall deadline timer of the older duplicate printer module
(`setTimeout(..., 4000)`, a literal). -/
def timerMsLegacy : Nat := 4000

/-- Transport of `services/escposPrinter.js` (`printEpson` and
`printXprinterThaiCP874` share it): the first of connect+write, error,
idle timeout (10000) and deadline timer (12000) settles the promise; on
success the timer is cleared and the socket is ended, with resolution,
200 ms after the write. -/
def deliverService (env : NetEnv) : DeliverOutcome :=
  let tc := env.connectAt.getD neverMs
  let te := env.errorAt.getD neverMs
  let tFail := min idleTimeoutMs timerMsService
  if tc ≤ te then
    if tc < tFail then
      { result := .ok, settledAt := tc + drainDelayMs
        writeDoneAt := some tc, closedAt := some (tc + drainDelayMs) }
    else
      { result := .timeout, settledAt := tFail
        writeDoneAt := none, closedAt := some tFail }
  else
    if te < tFail then
      { result := .socketError, settledAt := te
        writeDoneAt := none, closedAt := some te }
    else
      { result := .timeout, settledAt := tFail
        writeDoneAt := none, closedAt := some tFail }

/-- Transport of the older duplicate printer module: a single 4000 ms
deadline timer, no idle timeout, and `socket.end()` invoked inside the
write callback itself — the socket is closed at the write-completion
instant and the promise resolves there. -/
def deliverLegacy (env : NetEnv) : DeliverOutcome :=
  let tc := env.connectAt.getD neverMs
  let te := env.errorAt.getD neverMs
  if tc ≤ te then
    if tc < timerMsLegacy then
      { result := .ok, settledAt := tc
        writeDoneAt := some tc, closedAt := some tc }
    else
      { result := .timeout, settledAt := timerMsLegacy
        writeDoneAt := none, closedAt := some timerMsLegacy }
  else
    if te < timerMsLegacy then
      { result := .socketError, settledAt := te
        writeDoneAt := none, closedAt := some te }
    else
      { result := .timeout, settledAt := timerMsLegacy
        writeDoneAt := none, closedAt := some timerMsLegacy }

/-- Deadline of the service transport as a function of the module's only
configuration input (`process.env.XPR_CODEPAGE`): the 12000 ms literal
does not depend on it. -/
def serviceDeadlineFor (_xprCodepageEnv : Option Nat) : Nat :=
  timerMsService

/-! Order handler effect trace. -/

/-- Observable effects of one `orderHandler` invocation, in program order. -/
inductive Effect where
  | saveOrder (orderId : String) (items : List Item) (note : String)
  | emitNewOrder
  | printTo (p : Printer) (title : String) (lines : List String)
  | setPrintedAt
  | logPrintError (p : Printer)
  | respondOk (orderId : String)
  | respondError (status : Nat)
deriving DecidableEq, Repr

/-- Item as persisted on the order document:
`{ name, qty: item.qty || 1, category: item.category || '', price: ... }`. -/
def savedItem (x : Item) : Item :=
  { x with qty := some (receiptQty x.qty) }

/-- Success or failure of each printer function's promise during one
dispatch (the network outcome, from the handler's point of view). -/
structure PrintOracle where
  epsonOk : Bool
  xprinterOk : Bool
deriving DecidableEq, Repr

/-- Effect trace of `orderHandler`: validate the items list, save the
order, emit the realtime event, then for each non-empty group print in a
`try`/`catch` of its own (success updates `printedAt`, failure only
logs), and finally respond `{ ok: true, orderId }`. -/
def orderHandlerTrace (oracle : PrintOracle) (categories : List Category)
    (orderId : String) (table note : Option String) (items : List Item) :
    List Effect :=
  if items.length = 0 then [.respondError 400]
  else
    [.saveOrder orderId (items.map savedItem) (orDefault note "")]
    ++ [.emitNewOrder]
    ++ (if (epsonItems categories items).length ≠ 0 then
          [.printTo .EPSON ("ORDER #" ++ orderId)
              (makeLines table note (epsonItems categories items))]
          ++ (if oracle.epsonOk then [.setPrintedAt] else [.logPrintError .EPSON])
        else [])
    ++ (if (xprinterItems categories items).length ≠ 0 then
          [.printTo .XPRINTER ("ORDER #" ++ orderId)
              (makeLines table note (xprinterItems categories items))]
          ++ (if oracle.xprinterOk then [.setPrintedAt] else [.logPrintError .XPRINTER])
        else [])
    ++ [.respondOk orderId]

/-! Spec-side vocabulary (named after the spec's wording of the command
sequences, for comparison against the builders above). -/

/-- Device reset command `ESC @`. -/
def deviceReset : List Nat := [0x1B, 0x40]

/-- International-character-set selector `ESC R n`. -/
def intlCharset (n : Nat) : List Nat := [0x1B, 0x52, n]

/-- Codepage selector `ESC t n`. -/
def escCodepage (n : Nat) : List Nat := [0x1B, 0x74, n]

/-- Alternate codepage selector `GS t n`. -/
def gsCodepage (n : Nat) : List Nat := [0x1D, 0x74, n]

/-- Cancel double-byte (Chinese/Kanji) mode, `FS .`. -/
def cancelKanji : List Nat := [0x1C, 0x2E]

/-- Font selector `ESC M n`. -/
def fontSelect (n : Nat) : List Nat := [0x1B, 0x4D, n]

/-- International character set number for Thai (11). -/
def thaiIntlCode : Nat := 0x0B

/-- Epson codepage number for the Thai national character set TIS-620 (21). -/
def tis620Code : Nat := 0x15

/-! Concrete scenario data (the spec's worked example: table 5, two items,
Meat routed to EPSON and Seafood to XPRINTER). -/

/-- Example category table. -/
def cats0 : List Category :=
  [{ name := "Meat", printer := "EPSON" }, { name := "Seafood", printer := "XPRINTER" }]

/-- Example order items. -/
def items0 : List Item :=
  [{ name := "Pork Slice", qty := some 2, category := "Meat" },
   { name := "Squid", qty := some 1, category := "Seafood" }]

/-- The EPSON job of the example order. -/
def jobE0 : ReceiptJob := mkJob "123456" (some "5") none .EPSON (epsonItems cats0 items0)

/-! Helper lemmas about the routing loop. -/

/-- The push loop with accumulators computes the two filters. -/
theorem routeByPrinter_go (categories : List Category) (l : List Item) :
    ∀ a b : List Item,
      l.foldl
        (fun acc item =>
          match resolveTarget categories item with
          | .EPSON => (acc.1 ++ [item], acc.2)
          | .XPRINTER => (acc.1, acc.2 ++ [item])) (a, b)
      = (a ++ l.filter (fun i => resolveTarget categories i == Printer.EPSON),
         b ++ l.filter (fun i => resolveTarget categories i == Printer.XPRINTER)) := by
  induction l with
  | nil => intro a b; simp
  | cons i t ih =>
    intro a b
    cases h : resolveTarget categories i with
    | EPSON =>
      simp only [List.foldl_cons, h, List.filter_cons]
      rw [ih]
      simp [h]
    | XPRINTER =>
      simp only [List.foldl_cons, h, List.filter_cons]
      rw [ih]
      simp [h]

/-- The EPSON group is the filter of items resolving to EPSON. -/
theorem epsonItems_eq (categories : List Category) (items : List Item) :
    epsonItems categories items
      = items.filter (fun i => resolveTarget categories i == Printer.EPSON) := by
  unfold epsonItems routeByPrinter
  rw [routeByPrinter_go]
  simp

/-- The XPRINTER group is the filter of items resolving to XPRINTER. -/
theorem xprinterItems_eq (categories : List Category) (items : List Item) :
    xprinterItems categories items
      = items.filter (fun i => resolveTarget categories i == Printer.XPRINTER) := by
  unfold xprinterItems routeByPrinter
  rw [routeByPrinter_go]
  simp

/-- Resolving to XPRINTER is the Boolean complement of resolving to EPSON. -/
theorem xprinter_filter_complement (categories : List Category) :
    (fun i => resolveTarget categories i == Printer.XPRINTER)
      = (fun i => !(resolveTarget categories i == Printer.EPSON)) := by
  funext i
  cases resolveTarget categories i <;> decide

/-- Membership in the produced job list. -/
theorem mem_routeJobs (categories : List Category) (orderId : String)
    (table note : Option String) (items : List Item) (j : ReceiptJob) :
    j ∈ routeJobs categories orderId table note items
    ↔ ((epsonItems categories items).length ≠ 0
        ∧ j = mkJob orderId table note .EPSON (epsonItems categories items))
      ∨ ((xprinterItems categories items).length ≠ 0
        ∧ j = mkJob orderId table note .XPRINTER (xprinterItems categories items)) := by
  unfold routeJobs
  by_cases h1 : (epsonItems categories items).length ≠ 0 <;>
    by_cases h2 : (xprinterItems categories items).length ≠ 0 <;>
    simp [h1, h2]

/-- C1: for every order and category mapping, the jobs' item groups
concatenate to a permutation of the original items (each item exactly
once), each group keeps the original relative order (it is a sublist of
the input), no produced job is empty, and the produced jobs have
pairwise-distinct printer targets (at most one job per target). -/
theorem routing_partition (categories : List Category) (orderId : String)
    (table note : Option String) (items : List Item) :
    List.Perm
        ((routeJobs categories orderId table note items).flatMap ReceiptJob.items)
        items
    ∧ (∀ j ∈ routeJobs categories orderId table note items, j.items.Sublist items)
    ∧ (∀ j ∈ routeJobs categories orderId table note items, j.items ≠ [])
    ∧ ((routeJobs categories orderId table note items).map ReceiptJob.target).Nodup := by
  have hflat :
      (routeJobs categories orderId table note items).flatMap ReceiptJob.items
        = epsonItems categories items ++ xprinterItems categories items := by
    unfold routeJobs
    by_cases h1 : (epsonItems categories items).length ≠ 0 <;>
      by_cases h2 : (xprinterItems categories items).length ≠ 0 <;>
      simp_all [mkJob, List.length_eq_zero]
  refine ⟨?_, ?_, ?_, ?_⟩
  · rw [hflat, epsonItems_eq, xprinterItems_eq, xprinter_filter_complement]
    exact List.filter_append_perm _ items
  · intro j hj
    rcases (mem_routeJobs categories orderId table note items j).mp hj with ⟨_, hej⟩ | ⟨_, hxj⟩
    · rw [hej]
      simp [mkJob, epsonItems_eq]
    · rw [hxj]
      simp [mkJob, xprinterItems_eq]
  · intro j hj
    rcases (mem_routeJobs categories orderId table note items j).mp hj with ⟨he, hej⟩ | ⟨hx, hxj⟩
    · rw [hej]
      intro hnil
      exact he (by simp [mkJob] at hnil; simp [hnil])
    · rw [hxj]
      intro hnil
      exact hx (by simp [mkJob] at hnil; simp [hnil])
  · unfold routeJobs
    by_cases h1 : (epsonItems categories items).length ≠ 0 <;>
      by_cases h2 : (xprinterItems categories items).length ≠ 0 <;>
      simp [h1, h2, mkJob]

/-- C1 witness: on the spec's worked example the job items concatenate to
a permutation of the order and the EPSON job is non-empty. -/
theorem routing_partition_witness :
    jobE0 ∈ routeJobs cats0 "123456" (some "5") none items0
    ∧ List.Perm
        ((routeJobs cats0 "123456" (some "5") none items0).flatMap ReceiptJob.items)
        items0
    ∧ jobE0.items ≠ [] :=
  ⟨by decide,
   (routing_partition cats0 "123456" (some "5") none items0).1,
   (routing_partition cats0 "123456" (some "5") none items0).2.2.1 jobE0 (by decide)⟩

/-- C10: routing produces at most two jobs, every job targets either the
EPSON or the XPRINTER printer, and an item whose category is absent from
the configuration, or whose category's printer field is anything other
than the string XPRINTER, resolves to EPSON. -/
theorem routing_two_groups (categories : List Category) (orderId : String)
    (table note : Option String) (items : List Item) :
    (routeJobs categories orderId table note items).length ≤ 2
    ∧ (∀ j ∈ routeJobs categories orderId table note items,
        j.target = .EPSON ∨ j.target = .XPRINTER)
    ∧ (∀ item : Item,
        (categories.find? (fun c => c.name == item.category) = none
          ∨ ∃ cat, categories.find? (fun c => c.name == item.category) = some cat
              ∧ cat.printer ≠ "XPRINTER")
        → resolveTarget categories item = .EPSON) := by
  refine ⟨?_, ?_, ?_⟩
  · unfold routeJobs
    by_cases h1 : (epsonItems categories items).length ≠ 0 <;>
      by_cases h2 : (xprinterItems categories items).length ≠ 0 <;>
      simp [h1, h2]
  · intro j _
    cases j.target
    · exact Or.inl rfl
    · exact Or.inr rfl
  · intro item h
    unfold resolveTarget
    rcases h with hnone | ⟨cat, hfind, hne⟩
    · rw [hnone]
    · rw [hfind]
      simp [hne]

/-- C10 witness: the worked example yields two jobs, both with a known
target, and an item of an unknown category resolves to EPSON. -/
theorem routing_two_groups_witness :
    jobE0 ∈ routeJobs cats0 "123456" (some "5") none items0
    ∧ (routeJobs cats0 "123456" (some "5") none items0).length ≤ 2
    ∧ (jobE0.target = .EPSON ∨ jobE0.target = .XPRINTER)
    ∧ resolveTarget cats0 { name := "Ice", qty := none, category := "Dessert" } = .EPSON :=
  ⟨by decide,
   (routing_two_groups cats0 "123456" (some "5") none items0).1,
   (routing_two_groups cats0 "123456" (some "5") none items0).2.1 jobE0 (by decide),
   (routing_two_groups cats0 "123456" (some "5") none items0).2.2
      { name := "Ice", qty := none, category := "Dessert" } (Or.inl (by decide))⟩

/-- C2 counterexample: the EPSON builder of the older duplicate printer
module emits only the two selector commands — its first two bytes are not
the device reset `ESC @`, so the claim that the EPSON builder emits the
fuller reset-first form fails on that module. -/
theorem epson_legacy_init_no_reset :
    epsonSetThaiLegacy = [0x1B, 0x52, 0x0B, 0x1B, 0x74, 0x15]
    ∧ epsonSetThaiLegacy.take 2 ≠ [0x1B, 0x40] := by decide

/-- C2 amended: the EPSON builder of the service module used by the order
flow emits device reset, then the Thai international-character-set
selector, then the Thai-national codepage selector; the older duplicate
module's EPSON builder emits only the two selectors (the minimal form,
without the reset); the XPRINTER builder (identical in both modules up to
the configurable codepage numeral) emits device reset, cancel double-byte
mode, international character set 0 (USA, not Thai), the numeric codepage
via the two distinct selector commands, then font A. -/
theorem builders_emit_commands :
    epsonSetThai = deviceReset ++ intlCharset thaiIntlCode ++ escCodepage tis620Code
    ∧ (∀ cp : Nat, xprinterSetThaiCP874 cp
        = deviceReset ++ cancelKanji ++ intlCharset 0
          ++ escCodepage cp ++ gsCodepage cp ++ fontSelect 0)
    ∧ epsonSetThaiLegacy = intlCharset thaiIntlCode ++ escCodepage tis620Code := by
  refine ⟨by decide, fun cp => ?_, by decide⟩
  simp [xprinterSetThaiCP874, deviceReset, cancelKanji, intlCharset, escCodepage,
    gsCodepage, fontSelect, ESC, GS, FS]

/-- C3: for every title and every list of lines, the composed payload is
exactly init bytes, then blank line + title + newline, a 30-dash divider
plus newline, each line in input order, a closing divider, the fixed Thai
thank-you line (each segment encoded with the model's codepage), three
trailing newlines and the cut command — and it is never empty. -/
theorem compose_payload (codePage : Nat) (title : String) (lines : List String) :
    printEpsonPayload title lines
      = epsonSetThai
        ++ encodeTIS620 ("\n" ++ title ++ "\n")
        ++ encodeTIS620 (String.mk (List.replicate 30 '-') ++ "\n")
        ++ (lines.flatMap fun line => encodeTIS620 (line ++ "\n"))
        ++ encodeTIS620 (String.mk (List.replicate 30 '-') ++ "\n")
        ++ encodeTIS620 ("ขอบคุณครับ/ค่ะ" ++ "\n")
        ++ List.replicate 3 0x0A
        ++ cutPaper
    ∧ printXprinterPayload codePage title lines
      = xprinterSetThaiCP874 codePage
        ++ encodeCP874 ("\n" ++ title ++ "\n")
        ++ encodeCP874 (String.mk (List.replicate 30 '-') ++ "\n")
        ++ (lines.flatMap fun line => encodeCP874 (line ++ "\n"))
        ++ encodeCP874 (String.mk (List.replicate 30 '-') ++ "\n")
        ++ encodeCP874 ("ขอบคุณครับ/ค่ะ" ++ "\n")
        ++ List.replicate 3 0x0A
        ++ cutPaper
    ∧ printEpsonPayload title lines ≠ []
    ∧ printXprinterPayload codePage title lines ≠ [] := by
  have hdiv : divider = String.mk (List.replicate 30 '-') := by decide
  refine ⟨?_, ?_, ?_, ?_⟩
  · simp [printEpsonPayload, hdiv, thankYou]
  · simp [printXprinterPayload, hdiv, thankYou]
  · simp [printEpsonPayload, epsonSetThai, ESC]
  · simp [printXprinterPayload, xprinterSetThaiCP874, ESC]

/-- C7 counterexample: a negative source quantity is neither replaced by 1
nor is the resulting receipt quantity at least 1 — JS `qty || 1` only
replaces the falsy values, so `-2` flows through to the stored quantity
and onto the printed line. -/
theorem negative_qty_passes_through :
    receiptQty (some (-2)) = -2
    ∧ ¬(1 ≤ receiptQty (some (-2)))
    ∧ itemLine { name := "Pork Slice", qty := some (-2), category := "Meat" }
        = "x-2  Pork Slice"
    ∧ savedItem { name := "Pork Slice", qty := some (-2), category := "Meat" }
        = { name := "Pork Slice", qty := some (-2), category := "Meat" } := by
  decide

/-- C7 amended: the receipt quantity is 1 when the source quantity is
missing or zero (the falsy values) and is the source quantity unchanged —
negative values included — whenever it is non-zero. -/
theorem receipt_qty_default (q : Int) (h : q ≠ 0) :
    receiptQty none = 1 ∧ receiptQty (some 0) = 1 ∧ receiptQty (some q) = q := by
  refine ⟨rfl, rfl, ?_⟩
  simp [receiptQty, h]

/-- C7 witness: concrete instances of the amended quantity rule. -/
theorem receipt_qty_default_witness :
    receiptQty none = 1 ∧ receiptQty (some 0) = 1 ∧ receiptQty (some (-2)) = -2 :=
  receipt_qty_default (-2) (by decide)

/-- Last element of an order-handler-shaped trace. -/
theorem trace_getLast (e₁ e₂ r : Effect) (A B : List Effect) :
    ([e₁] ++ [e₂] ++ A ++ B ++ [r]).getLast? = some r := by
  have hshape : [e₁] ++ [e₂] ++ A ++ B ++ [r] = (([e₁] ++ [e₂] ++ A) ++ B) ++ [r] := by
    simp [List.append_assoc]
  rw [hshape, List.getLast?_concat]

/-- C4 counterexample: the older duplicate module's deadline timer is a
fixed 4000 ms — below the claimed 10–12 second range — a call to a
never-accepting address is rejected with a timeout at 4000 ms there; and
the service module's 12000 ms deadline does not vary with the module's
environment configuration, so it is not configurable. -/
theorem legacy_deadline_out_of_range :
    deliverLegacy { connectAt := none, errorAt := none }
      = { result := .timeout, settledAt := 4000, writeDoneAt := none, closedAt := some 4000 }
    ∧ timerMsLegacy = 4000
    ∧ ¬(10000 ≤ timerMsLegacy)
    ∧ serviceDeadlineFor (some 5) = serviceDeadlineFor (some 999) := by decide

/-- C4 amended: each printer module arms a single fixed (non-configurable)
deadline timer — 12000 ms in the service module (alongside a 10000 ms
socket idle timeout) and 4000 ms in the older duplicate — and a call
whose connection is never accepted settles with a timeout or socket-error
failure, never a success, within that module's fixed deadline. -/
theorem transport_bounded_failure (env : NetEnv) (h : env.connectAt = none) :
    ((deliverService env).result = .timeout ∨ (deliverService env).result = .socketError)
    ∧ (deliverService env).settledAt ≤ timerMsService
    ∧ ((deliverLegacy env).result = .timeout ∨ (deliverLegacy env).result = .socketError)
    ∧ (deliverLegacy env).settledAt ≤ timerMsLegacy := by
  obtain ⟨c, e⟩ := env
  simp only at h
  subst h
  cases e with
  | none => decide
  | some t =>
    simp only [deliverService, deliverLegacy, Option.getD_none, Option.getD_some]
    split_ifs <;>
      simp_all [timerMsService, timerMsLegacy, idleTimeoutMs, neverMs, drainDelayMs] <;>
      omega

/-- C4 witness: a connection that is never accepted and never errors. -/
theorem transport_bounded_failure_witness :
    ((deliverService { connectAt := none, errorAt := none }).result = .timeout
      ∨ (deliverService { connectAt := none, errorAt := none }).result = .socketError)
    ∧ (deliverService { connectAt := none, errorAt := none }).settledAt ≤ timerMsService
    ∧ ((deliverLegacy { connectAt := none, errorAt := none }).result = .timeout
      ∨ (deliverLegacy { connectAt := none, errorAt := none }).result = .socketError)
    ∧ (deliverLegacy { connectAt := none, errorAt := none }).settledAt ≤ timerMsLegacy :=
  transport_bounded_failure { connectAt := none, errorAt := none } rfl

/-- C5 counterexample: in the older duplicate printer module a successful
call closes the socket at the write-completion instant itself
(`socket.end()` runs inside the write callback), so the socket is closed
immediately after the write with no drain delay. -/
theorem legacy_closes_at_write :
    (deliverLegacy { connectAt := some 0, errorAt := none }).result = .ok
    ∧ (deliverLegacy { connectAt := some 0, errorAt := none }).writeDoneAt = some 0
    ∧ (deliverLegacy { connectAt := some 0, errorAt := none }).closedAt = some 0 := by
  decide

/-- C5 amended: the service module used by the order flow holds a
successfully written connection open for the 200 ms drain delay before
ending the socket, while the older duplicate module ends the socket at
the write-completion instant. -/
theorem service_holds_before_close (env : NetEnv) (t : Nat)
    (hc : env.connectAt = some t) (he : env.errorAt = none) (ht : t < idleTimeoutMs) :
    (deliverService env).result = .ok
    ∧ (deliverService env).writeDoneAt = some t
    ∧ (deliverService env).closedAt = some (t + drainDelayMs)
    ∧ drainDelayMs = 200
    ∧ (t < timerMsLegacy →
        (deliverLegacy env).result = .ok
        ∧ (deliverLegacy env).writeDoneAt = some t
        ∧ (deliverLegacy env).closedAt = some t) := by
  obtain ⟨c, e⟩ := env
  simp only at hc he
  subst hc
  subst he
  simp only [deliverService, deliverLegacy, Option.getD_none, Option.getD_some]
  split_ifs <;>
    (simp_all [timerMsService, timerMsLegacy, idleTimeoutMs, neverMs, drainDelayMs];
      try omega)

/-- C5 witness: a connection accepted at 3 ms. -/
theorem service_holds_before_close_witness :
    3 < idleTimeoutMs
    ∧ ((deliverService { connectAt := some 3, errorAt := none }).result = .ok
      ∧ (deliverService { connectAt := some 3, errorAt := none }).writeDoneAt = some 3
      ∧ (deliverService { connectAt := some 3, errorAt := none }).closedAt
          = some (3 + drainDelayMs)
      ∧ drainDelayMs = 200
      ∧ (3 < timerMsLegacy →
          (deliverLegacy { connectAt := some 3, errorAt := none }).result = .ok
          ∧ (deliverLegacy { connectAt := some 3, errorAt := none }).writeDoneAt = some 3
          ∧ (deliverLegacy { connectAt := some 3, errorAt := none }).closedAt = some 3)) :=
  ⟨by decide,
   service_holds_before_close { connectAt := some 3, errorAt := none } 3 rfl rfl (by decide)⟩

/-- C6: for every print outcome the order handler's trace starts by
persisting the order (before any print attempt), ends by answering
`{ ok: true, orderId }`, and whether each printer is dispatched to
depends only on its partition being non-empty — never on the other
printer's success or failure, and no effect ever removes the saved
order. -/
theorem order_flow_isolated (oracle : PrintOracle) (categories : List Category)
    (orderId : String) (table note : Option String) (items : List Item)
    (h : items ≠ []) :
    (orderHandlerTrace oracle categories orderId table note items).head?
        = some (.saveOrder orderId (items.map savedItem) (orDefault note ""))
    ∧ (orderHandlerTrace oracle categories orderId table note items).getLast?
        = some (.respondOk orderId)
    ∧ (Effect.printTo .EPSON ("ORDER #" ++ orderId)
          (makeLines table note (epsonItems categories items))
        ∈ orderHandlerTrace oracle categories orderId table note items
        ↔ (epsonItems categories items).length ≠ 0)
    ∧ (Effect.printTo .XPRINTER ("ORDER #" ++ orderId)
          (makeLines table note (xprinterItems categories items))
        ∈ orderHandlerTrace oracle categories orderId table note items
        ↔ (xprinterItems categories items).length ≠ 0) := by
  have hlen : ¬(items.length = 0) := fun hl => h (List.length_eq_zero.mp hl)
  unfold orderHandlerTrace
  rw [if_neg hlen]
  obtain ⟨eo, xo⟩ := oracle
  refine ⟨rfl, trace_getLast _ _ _ _ _, ?_, ?_⟩
  · by_cases h1 : (epsonItems categories items).length ≠ 0 <;>
      by_cases h2 : (xprinterItems categories items).length ≠ 0 <;>
      cases eo <;> cases xo <;>
      simp [h1, h2]
  · by_cases h1 : (epsonItems categories items).length ≠ 0 <;>
      by_cases h2 : (xprinterItems categories items).length ≠ 0 <;>
      cases eo <;> cases xo <;>
      simp [h1, h2]

/-- C6 witness: the worked example with the EPSON print failing — the
trace still saves first, still answers ok, and still dispatches to the
XPRINTER. -/
theorem order_flow_isolated_witness :
    items0 ≠ []
    ∧ (orderHandlerTrace { epsonOk := false, xprinterOk := true } cats0
          "123456" (some "5") none items0).head?
        = some (.saveOrder "123456" (items0.map savedItem) (orDefault none ""))
    ∧ (orderHandlerTrace { epsonOk := false, xprinterOk := true } cats0
          "123456" (some "5") none items0).getLast?
        = some (.respondOk "123456")
    ∧ (Effect.printTo .XPRINTER ("ORDER #" ++ "123456")
          (makeLines (some "5") none (xprinterItems cats0 items0))
        ∈ orderHandlerTrace { epsonOk := false, xprinterOk := true } cats0
            "123456" (some "5") none items0
        ↔ (xprinterItems cats0 items0).length ≠ 0) :=
  ⟨by decide,
   (order_flow_isolated { epsonOk := false, xprinterOk := true } cats0
      "123456" (some "5") none items0 (by decide)).1,
   (order_flow_isolated { epsonOk := false, xprinterOk := true } cats0
      "123456" (some "5") none items0 (by decide)).2.1,
   (order_flow_isolated { epsonOk := false, xprinterOk := true } cats0
      "123456" (some "5") none items0 (by decide)).2.2.2⟩

/-- C8: a truthy note appears (as the note line) in the lines of every job
the router produces, and when the note is absent the lines of every job
are exactly the table line followed by the item lines — no note line. -/
theorem note_on_every_receipt (categories : List Category) (orderId : String)
    (table note : Option String) (items : List Item) :
    (∀ n : String, note = some n → n ≠ "" →
      ∀ j ∈ routeJobs categories orderId table note items, noteLine n ∈ j.lines)
    ∧ (noteTruthy note = false →
      ∀ j ∈ routeJobs categories orderId table note items,
        j.lines = ["โต๊ะ " ++ orDefault table "-"] ++ j.items.map itemLine) := by
  constructor
  · intro n hn hne j hj
    rcases (mem_routeJobs categories orderId table note items j).mp hj with
      ⟨_, hj'⟩ | ⟨_, hj'⟩ <;>
      subst hj' <;>
      simp [mkJob, makeLines, noteTruthy, hn, hne]
  · intro hfalse j hj
    rcases (mem_routeJobs categories orderId table note items j).mp hj with
      ⟨_, hj'⟩ | ⟨_, hj'⟩ <;>
      subst hj' <;>
      simp [mkJob, makeLines, hfalse]

/-- C8 witness: with a note, the EPSON job of the worked example carries
the note line; without one, its lines are exactly table line plus item
lines. -/
theorem note_on_every_receipt_witness :
    noteLine "extra spicy"
      ∈ (mkJob "123456" (some "5") (some "extra spicy") .EPSON
          (epsonItems cats0 items0)).lines
    ∧ jobE0.lines = ["โต๊ะ " ++ orDefault (some "5") "-"] ++ jobE0.items.map itemLine :=
  ⟨(note_on_every_receipt cats0 "123456" (some "5") (some "extra spicy") items0).1
      "extra spicy" rfl (by decide) _ (by decide),
   (note_on_every_receipt cats0 "123456" (some "5") none items0).2 (by decide)
      jobE0 (by decide)⟩

/-- C9: the per-target payloads are a function of exactly the codepage
numeral, category mapping, order identifier, table, note and items — two
calls with equal inputs give byte-identical payloads per target. -/
theorem route_deterministic (cp₁ cp₂ : Nat) (cats₁ cats₂ : List Category)
    (oid₁ oid₂ : String) (tb₁ tb₂ nt₁ nt₂ : Option String) (it₁ it₂ : List Item)
    (hcp : cp₁ = cp₂) (hc : cats₁ = cats₂) (ho : oid₁ = oid₂) (htb : tb₁ = tb₂)
    (hnt : nt₁ = nt₂) (hit : it₁ = it₂) :
    routePayloads cp₁ cats₁ oid₁ tb₁ nt₁ it₁
      = routePayloads cp₂ cats₂ oid₂ tb₂ nt₂ it₂ := by
  subst hcp
  subst hc
  subst ho
  subst htb
  subst hnt
  subst hit
  rfl

/-- C9 witness: two identical dispatches of the worked example agree. -/
theorem route_deterministic_witness :
    routePayloads defaultXprCodepage cats0 "123456" (some "5") none items0
      = routePayloads defaultXprCodepage cats0 "123456" (some "5") none items0 :=
  route_deterministic defaultXprCodepage defaultXprCodepage cats0 cats0
    "123456" "123456" (some "5") (some "5") none none items0 items0
    rfl rfl rfl rfl rfl rfl

end ShabuOrder
